import Mathlib

/-!
Verification of the cpc-gpio-expander bridge daemon (Rust) against its
specification.  The definitions below are a shallow embedding of the
bridge's data model and operations:

* the northbound generic-netlink layer (`src/bridge/src/driver/mod.rs`,
  `src/bridge/src/driver/packet/mod.rs`): commands, attributes,
  multicast filtering, packet parsing and reply builders;
* the router event loop (`src/bridge/src/router/mod.rs`,
  `src/bridge/src/router/adapter.rs`): translation of inbound driver
  requests into southbound operations and of their outcomes into
  northbound status replies, signal handling and shutdown;
* the southbound codec and client (`src/bridge/src/endpoint/packet/mod.rs`,
  `src/bridge/src/gpio/mod.rs`, `src/bridge/src/endpoint/mod.rs`):
  framing, the 8-bit wrapping sequence counter, the reply wait loop;
* the mock secondary (`src/bridge/src/gpio/interface/mock.rs`).

Machine integers are modelled as `Nat` with explicit `% 256` where u8
wraparound matters; fallible code returns `Option` or `Except`.
-/

namespace CpcGpio

set_option autoImplicit false

/-! ### Northbound data model (driver/packet/mod.rs) -/

/-- Generic-netlink command IDs of the `CPC_GPIO_GENL` family
(`driver/packet/mod.rs`, enum `Command`). -/
inductive DriverCommand
  | Unspec
  | Exit
  | Init
  | Deinit
  | GetGpioValue
  | SetGpioValue
  | SetGpioConfig
  | SetGpioDirection
deriving DecidableEq, Repr

/-- Northbound status set (`driver/packet/mod.rs`, enum `Status`:
Ok=0, NotSupported=1, BrokenPipe=2, ProtocolError=3, Unknown=u32::MAX). -/
inductive DriverStatus
  | Ok
  | NotSupported
  | BrokenPipe
  | ProtocolError
  | Unknown
deriving DecidableEq, Repr

/-- Northbound pin value (`driver/packet/mod.rs`, enum `GpioValue`: Low=0, High=1). -/
inductive DriverGpioValue
  | Low
  | High
deriving DecidableEq, Repr

/-- Northbound pin direction (`driver/packet/mod.rs`, enum `GpioDirection`:
Output=0, Input=1, Disabled=2). -/
inductive DriverGpioDirection
  | Output
  | Input
  | Disabled
deriving DecidableEq, Repr

/-- Northbound pin configuration (`driver/packet/mod.rs`, enum `GpioConfig`,
using the Linux pin-control identifiers). -/
inductive DriverGpioConfig
  | BiasDisable
  | BiasPullDown
  | BiasPullUp
  | DriveOpenDrain
  | DriveOpenSource
  | DrivePushPull
deriving DecidableEq, Repr

/-- The u32 value of each northbound `GpioValue`, used when a reply embeds
the observed value as a `GpioValue` attribute. -/
def DriverGpioValue.toNat : DriverGpioValue → Nat
  | .Low => 0
  | .High => 1

/-- `GpioValue::try_from` on a u32 (derived `TryFromPrimitive`). -/
def driverGpioValue_tryFrom (v : Nat) : Option DriverGpioValue :=
  if v = 0 then some .Low
  else if v = 1 then some .High
  else none

/-- `GpioDirection::try_from` on a u32 (derived `TryFromPrimitive`). -/
def driverGpioDirection_tryFrom (v : Nat) : Option DriverGpioDirection :=
  if v = 0 then some .Output
  else if v = 1 then some .Input
  else if v = 2 then some .Disabled
  else none

/-- `GpioConfig::try_from` on a u32 (derived `TryFromPrimitive`; the
discriminants are the Linux pin-control identifiers 1,3,5,6,7,8). -/
def driverGpioConfig_tryFrom (v : Nat) : Option DriverGpioConfig :=
  if v = 1 then some .BiasDisable
  else if v = 3 then some .BiasPullDown
  else if v = 5 then some .BiasPullUp
  else if v = 6 then some .DriveOpenDrain
  else if v = 7 then some .DriveOpenSource
  else if v = 8 then some .DrivePushPull
  else none

/-- An inbound generic-netlink message as the driver handle sees it after
the neli library has decoded it: the command of the genl header plus the
attribute payloads the bridge ever reads.  A `none` attribute is an
attribute absent from the message. -/
structure NlPacket where
  cmd : DriverCommand
  uniqueId : Nat
  message : Option String := none
  gpioPin : Option Nat := none
  gpioValue : Option Nat := none
  gpioConfig : Option Nat := none
  gpioDirection : Option Nat := none
deriving DecidableEq, Repr

/-- `GENL_MULTICAST_UID_ALL` (driver/mod.rs): the reserved broadcast
unique-id. -/
def GENL_MULTICAST_UID_ALL : Nat := 0

/-- `filter_packet` (driver/mod.rs lines 522-534).  Returns `true` when the
packet must be filtered out (discarded): a packet whose `UniqueId`
attribute is the broadcast id or the bridge's own id is kept, every other
destination is filtered. -/
def filter_packet (unique_id : Nat) (packet : NlPacket) : Bool :=
  if packet.uniqueId = GENL_MULTICAST_UID_ALL then false
  else if packet.uniqueId = unique_id then false
  else true

/-- The driver background thread's forwarding decision (driver/mod.rs lines
91-116): a received multicast packet is sent to the router's channel iff
`filter_packet` does not filter it; a filtered packet is dropped silently. -/
def driver_thread_forward (unique_id : Nat) (packet : NlPacket) : Option NlPacket :=
  if filter_packet unique_id packet then none else some packet

/-- A parsed inbound driver request (driver/packet/mod.rs, enum `Packet`). -/
inductive DriverPacket
  | Exit (message : String)
  | GetGpioValue (pin : Nat)
  | SetGpioValue (pin : Nat) (value : DriverGpioValue)
  | SetGpioConfig (pin : Nat) (config : DriverGpioConfig)
  | SetGpioDirection (pin : Nat) (direction : DriverGpioDirection)
deriving DecidableEq, Repr

/-- `Handle::parse` (driver/mod.rs lines 356-420): dispatch on the genl
command, reading the per-command attributes; a missing attribute or an
out-of-range enum value is an error, and any command outside the five
handled ones is the "Unknown command" error. -/
def parse (packet : NlPacket) : Except String DriverPacket :=
  match packet.cmd with
  | .Exit =>
    match packet.message with
    | some message => .ok (.Exit message)
    | none => .error "missing Message attribute"
  | .GetGpioValue =>
    match packet.gpioPin with
    | some pin => .ok (.GetGpioValue pin)
    | none => .error "missing GpioPin attribute"
  | .SetGpioValue =>
    match packet.gpioPin, packet.gpioValue with
    | some pin, some value =>
      match driverGpioValue_tryFrom value with
      | some value => .ok (.SetGpioValue pin value)
      | none => .error "invalid GpioValue attribute"
    | _, _ => .error "missing GpioPin or GpioValue attribute"
  | .SetGpioConfig =>
    match packet.gpioPin, packet.gpioConfig with
    | some pin, some config =>
      match driverGpioConfig_tryFrom config with
      | some config => .ok (.SetGpioConfig pin config)
      | none => .error "invalid GpioConfig attribute"
    | _, _ => .error "missing GpioPin or GpioConfig attribute"
  | .SetGpioDirection =>
    match packet.gpioPin, packet.gpioDirection with
    | some pin, some direction =>
      match driverGpioDirection_tryFrom direction with
      | some direction => .ok (.SetGpioDirection pin direction)
      | none => .error "invalid GpioDirection attribute"
    | _, _ => .error "missing GpioPin or GpioDirection attribute"
  | _ => .error "Unknown command"

/-! ### Southbound status and error model (endpoint/mod.rs, gpio/mod.rs) -/

/-- Southbound status set (endpoint/packet/mod.rs, enum `Status`:
Ok=0, NotSupported=1, InvalidPin=2, Unknown=255). -/
inductive EndpointStatus
  | Ok
  | NotSupported
  | InvalidPin
  | Unknown
deriving DecidableEq, Repr

/-- `Status::try_from` on a u8 (derived `TryFromPrimitive`). -/
def endpointStatus_tryFrom (v : Nat) : Option EndpointStatus :=
  if v = 0 then some .Ok
  else if v = 1 then some .NotSupported
  else if v = 2 then some .InvalidPin
  else if v = 255 then some .Unknown
  else none

/-- Recoverable southbound failure of an operation (endpoint/mod.rs, enum
`Error`; the same variants appear in gpio/mod.rs as `RecoverableError`,
`Libcpc` being the transport failure). -/
inductive EndpointError
  | Timeout (elapsedMs : Nat)
  | Deserialization
  | Serialization
  | Libcpc
  | Packet (status : EndpointStatus)
deriving DecidableEq, Repr

/-- Outcome classification of a southbound call as the router sees it
(gpio/mod.rs, enum `Error`): recoverable failures are mapped to a
northbound status, unrecoverable ones abort the router thread. -/
inductive GpioError
  | Recoverable (err : EndpointError)
  | Unrecoverable (message : String)
deriving DecidableEq, Repr

/-- `From<&endpoint::Status> for driver::Status` (router/adapter.rs lines
19-28). -/
def endpointStatus_into (status : EndpointStatus) : DriverStatus :=
  match status with
  | .Ok => .Ok
  | .NotSupported => .NotSupported
  | .InvalidPin => .ProtocolError
  | .Unknown => .Unknown

/-- `TryFrom<&endpoint::Error> for driver::Status` followed by `.ok()`
(router/adapter.rs lines 6-17): `Timeout` has no status (the conversion
bails, so `.ok()` is `none`), codec errors map to `ProtocolError`, a
transport (`Libcpc`) failure to `BrokenPipe`, and a non-Ok secondary
status through `endpointStatus_into`. -/
def driverStatus_tryFrom (err : EndpointError) : Option DriverStatus :=
  match err with
  | .Timeout _ => none
  | .Deserialization => some .ProtocolError
  | .Serialization => some .ProtocolError
  | .Libcpc => some .BrokenPipe
  | .Packet status => some (endpointStatus_into status)

/-! ### Reply builders and router translation (driver/mod.rs, router/mod.rs) -/

/-- A northbound unicast reply frame as built by the reply builders
(driver/mod.rs lines 141-293): the genl command plus the attributes
`UniqueId`, `GpioPin`, `Status` and (for `GetGpioValue` success) the
observed `GpioValue`. -/
structure Reply where
  cmd : DriverCommand
  uniqueId : Nat
  gpioPin : Nat
  status : DriverStatus
  gpioValue : Option Nat := none
deriving DecidableEq, Repr

/-- `Handle::get_gpio_value_reply` (driver/mod.rs lines 141-185): a frame
is sent only when a status is present; `none` means the request is
absorbed without reply. -/
def get_gpio_value_reply (unique_id gpio_pin : Nat) (gpio_value : Option Nat)
    (status : Option DriverStatus) : Option Reply :=
  status.map fun s =>
    { cmd := .GetGpioValue, uniqueId := unique_id, gpioPin := gpio_pin,
      status := s, gpioValue := gpio_value }

/-- `Handle::set_gpio_value_reply` (driver/mod.rs lines 187-221). -/
def set_gpio_value_reply (unique_id gpio_pin : Nat)
    (status : Option DriverStatus) : Option Reply :=
  status.map fun s =>
    { cmd := .SetGpioValue, uniqueId := unique_id, gpioPin := gpio_pin, status := s }

/-- `Handle::set_gpio_config_reply` (driver/mod.rs lines 223-257). -/
def set_gpio_config_reply (unique_id gpio_pin : Nat)
    (status : Option DriverStatus) : Option Reply :=
  status.map fun s =>
    { cmd := .SetGpioConfig, uniqueId := unique_id, gpioPin := gpio_pin, status := s }

/-- `Handle::set_gpio_direction_reply` (driver/mod.rs lines 259-293). -/
def set_gpio_direction_reply (unique_id gpio_pin : Nat)
    (status : Option DriverStatus) : Option Reply :=
  status.map fun s =>
    { cmd := .SetGpioDirection, uniqueId := unique_id, gpioPin := gpio_pin, status := s }

/-- Effect of handling one inbound driver request in the router thread
(router/mod.rs lines 100-129): a reply frame is sent, or the request is
absorbed without reply, or the thread stops — escalating through the
router exit pipe, or notifying the driver-unload pipe for `Exit`. -/
inductive RouterStep
  | reply (r : Reply)
  | noReply
  | escalate (message : String)
  | unload (message : String)
deriving DecidableEq, Repr

/-- Sends an optional reply frame: mirrors calling a reply builder with an
`Option<Status>` and continuing the loop. -/
def emit : Option Reply → RouterStep
  | some r => .reply r
  | none => .noReply

/-- The display message of a failed u32-to-u8 `try_into` (Rust's
`TryFromIntError`), escalated through `?` in the request handlers. -/
def tryFromIntError : String := "out of range integral type conversion attempted"

/-- A `GpioValueIs` reply as the router consumes it (endpoint/packet/mod.rs,
struct `GpioValueIs`): the echoed seq and the `Result<GpioValue>` decoded
from the value byte (`none` models a value byte outside {0,1}). -/
structure GpioValueIsReply where
  seq : Nat
  value : Option DriverGpioValue
deriving DecidableEq, Repr

/-- `on_gpio_get_value` (router/mod.rs lines 205-231).  The u32 pin is
first narrowed to u8 (`try_into?`, escalating when the pin exceeds 255),
then the southbound `get_gpio_value` outcome — passed here as `op` — is
translated: success with a decodable value replies `Ok` carrying the
value; success with an undecodable value byte replies `Unknown` without a
value; a recoverable failure replies with the adapted status or absorbs
the request when no status exists (`Timeout`); an unrecoverable failure
escalates.  The reply always echoes the original pin. -/
def on_gpio_get_value (unique_id pin : Nat)
    (op : Except GpioError GpioValueIsReply) : RouterStep :=
  if pin ≤ 255 then
    match op with
    | .ok gpio_value =>
      match gpio_value.value with
      | some value =>
        emit (get_gpio_value_reply unique_id pin (some value.toNat) (some .Ok))
      | none =>
        emit (get_gpio_value_reply unique_id pin none (some .Unknown))
    | .error (.Recoverable err) =>
      emit (get_gpio_value_reply unique_id pin none (driverStatus_tryFrom err))
    | .error (.Unrecoverable message) => .escalate message
  else .escalate tryFromIntError

/-- `on_gpio_set_value` (router/mod.rs lines 233-253): narrow the pin,
translate the southbound outcome into an optional status, reply iff the
status exists, escalate unrecoverable failures. -/
def on_gpio_set_value (unique_id pin : Nat)
    (op : Except GpioError Unit) : RouterStep :=
  if pin ≤ 255 then
    match op with
    | .ok _ => emit (set_gpio_value_reply unique_id pin (some .Ok))
    | .error (.Recoverable err) =>
      emit (set_gpio_value_reply unique_id pin (driverStatus_tryFrom err))
    | .error (.Unrecoverable message) => .escalate message
  else .escalate tryFromIntError

/-- `on_gpio_set_config` (router/mod.rs lines 255-275). -/
def on_gpio_set_config (unique_id pin : Nat)
    (op : Except GpioError Unit) : RouterStep :=
  if pin ≤ 255 then
    match op with
    | .ok _ => emit (set_gpio_config_reply unique_id pin (some .Ok))
    | .error (.Recoverable err) =>
      emit (set_gpio_config_reply unique_id pin (driverStatus_tryFrom err))
    | .error (.Unrecoverable message) => .escalate message
  else .escalate tryFromIntError

/-- `on_gpio_set_direction` (router/mod.rs lines 277-297). -/
def on_gpio_set_direction (unique_id pin : Nat)
    (op : Except GpioError Unit) : RouterStep :=
  if pin ≤ 255 then
    match op with
    | .ok _ => emit (set_gpio_direction_reply unique_id pin (some .Ok))
    | .error (.Recoverable err) =>
      emit (set_gpio_direction_reply unique_id pin (driverStatus_tryFrom err))
    | .error (.Unrecoverable message) => .escalate message
  else .escalate tryFromIntError

/-- The router thread's dispatch on a parsed packet (router/mod.rs lines
100-129): a parse error escalates, `Exit` notifies the driver-unload pipe
and stops the thread, the four GPIO requests run their handler.  The
southbound outcomes are supplied as parameters `get_op` / `set_op`. -/
def dispatch (unique_id : Nat) (packet : NlPacket)
    (get_op : Except GpioError GpioValueIsReply)
    (set_op : Except GpioError Unit) : RouterStep :=
  match parse packet with
  | .error err => .escalate err
  | .ok (.Exit message) => .unload message
  | .ok (.GetGpioValue pin) => on_gpio_get_value unique_id pin get_op
  | .ok (.SetGpioValue pin _) => on_gpio_set_value unique_id pin set_op
  | .ok (.SetGpioConfig pin _) => on_gpio_set_config unique_id pin set_op
  | .ok (.SetGpioDirection pin _) => on_gpio_set_direction unique_id pin set_op

/-- End-to-end handling of one multicast packet: the driver background
thread forwards it or drops it (`filter_packet`), and only a forwarded
packet reaches the router thread's dispatch.  `none` means the packet was
discarded silently: the router never sees it and no reply can result. -/
def multicast_step (unique_id : Nat) (packet : NlPacket)
    (get_op : Except GpioError GpioValueIsReply)
    (set_op : Except GpioError Unit) : Option RouterStep :=
  (driver_thread_forward unique_id packet).map
    fun p => dispatch unique_id p get_op set_op

/-- Observable effect of one router-thread iteration: the replies sent,
whether the router exit pipe or the driver-unload pipe was notified, and
whether the loop continues. -/
structure LoopEffect where
  replies : List Reply
  routerExitNotified : Bool
  driverUnloadNotified : Bool
  continues : Bool
deriving DecidableEq, Repr

/-- Maps a `RouterStep` to its loop effect (router/mod.rs lines 88-130):
reply or absorption continue the loop; an escalation writes the router
exit pipe and returns; `Exit` writes the driver-unload pipe and returns. -/
def routerLoopBody : RouterStep → LoopEffect
  | .reply r => { replies := [r], routerExitNotified := false,
                  driverUnloadNotified := false, continues := true }
  | .noReply => { replies := [], routerExitNotified := false,
                  driverUnloadNotified := false, continues := true }
  | .escalate _ => { replies := [], routerExitNotified := true,
                     driverUnloadNotified := false, continues := false }
  | .unload _ => { replies := [], routerExitNotified := false,
                   driverUnloadNotified := true, continues := false }

/-! ### Process exit model (utils.rs, router/mod.rs, main.rs) -/

/-- How an event observed by the poll loop ends the process (utils.rs
`ProcessExit` and `exit`): a `ProcessExit::Context` bail logs at info
level and exits 0, any other error exits 1 with a backtrace, and a
non-terminal event is ignored. -/
inductive ExitOutcome
  | cleanExit (context : String)
  | errorExit (context : String)
  | ignored
deriving DecidableEq, Repr

/-- `utils::exit` (utils.rs lines 103-111): process exit status per
outcome; `none` when the process keeps running. -/
def exitCode : ExitOutcome → Option Nat
  | .cleanExit _ => some 0
  | .errorExit _ => some 1
  | .ignored => none

/-- The signals mio reports (mio_signals::Signal). -/
inductive Signal
  | Interrupt
  | Quit
  | Terminate
  | User1
  | User2
deriving DecidableEq, Repr

/-- The signal set main subscribes to (main.rs line 35:
`Signals::new(Signal::Interrupt | Signal::Terminate)`). -/
def subscribedSignals : List Signal := [Signal.Interrupt, Signal.Terminate]

/-- Whether `on_signal_exit` performs a final `Deinit` for the signal
(router/mod.rs lines 179-203: the Interrupt, Terminate and User1 arms
call `driver.deinit`; any other signal is only logged). -/
def signal_triggers_deinit : Signal → Bool
  | .Interrupt => true
  | .Terminate => true
  | .User1 => true
  | _ => false

/-- `on_signal_exit` (router/mod.rs lines 179-203) for a single received
signal, parameterized by the outcome of the final `Deinit`: the three
handled signals deinit and then bail a `ProcessExit::Context` (clean
exit) when the deinit succeeded, or a plain error when it failed; other
signals are logged and ignored. -/
def on_signal_exit (signal : Signal) (deinitOk : Bool) : ExitOutcome :=
  match signal with
  | .Interrupt | .Terminate | .User1 =>
    if deinitOk then .cleanExit "Received signal"
    else .errorExit "Received signal, deinit failed"
  | _ => .ignored

/-- `on_router_thread_exit` (router/mod.rs lines 163-173): after the
router thread escalated, the poll loop attempts a final `Deinit` and
bails a plain error either way — the process exits non-zero. -/
def on_router_thread_exit (context : String) (deinitOk : Bool) : ExitOutcome :=
  if deinitOk then .errorExit context
  else .errorExit (context ++ ", deinit failed")

/-! ### Northbound handshake (driver/mod.rs Handle::init / Handle::new) -/

/-- `Handle::init` (driver/mod.rs lines 424-487), instrumented with the
list of genl commands it writes to the kernel driver.  The guards run
before anything is sent: a zero unique-id or an empty pin-name list fails
without sending; otherwise `Init` is sent and the reply's errno decides
success. -/
def handle_init (unique_id : Nat) (gpio_names : List String)
    (init_reply_status : Nat) : List DriverCommand × Except String Unit :=
  if unique_id = GENL_MULTICAST_UID_ALL then
    ([], .error "Unique ID cannot be 0")
  else if gpio_names.isEmpty then
    ([], .error "GPIO count cannot be 0")
  else
    ([DriverCommand.Init],
      if init_reply_status ≠ 0 then .error "Failed to initialize Kernel Driver"
      else .ok ())

/-- The handshake part of `Handle::new` (driver/mod.rs lines 118-138),
instrumented with the list of genl commands written: `Deinit` is sent
first (its outcome supplied as `deinit_result`); with `--deinit` the
construction stops there with a clean-exit sentinel; otherwise
`Handle::init` runs. -/
def handle_new_sent (deinit_and_exit : Bool) (unique_id : Nat)
    (gpio_names : List String) (deinit_result : Except String Unit)
    (init_reply_status : Nat) : List DriverCommand × Except String Unit :=
  match deinit_result with
  | .error err => ([DriverCommand.Deinit], .error err)
  | .ok _ =>
    if deinit_and_exit then
      ([DriverCommand.Deinit], .error "Deinitialized Kernel Driver")
    else
      let (init_sent, result) := handle_init unique_id gpio_names init_reply_status
      (DriverCommand.Deinit :: init_sent, result)

/-! ### Southbound codec (endpoint/packet/mod.rs) -/

/-- Secondary-to-host command bytes (endpoint/packet/mod.rs, enum
`SecondaryCmd`: VersionIs=128 … GpioValueIs=134, UnsupportedCmdIs=255). -/
inductive SecondaryCmd
  | VersionIs
  | StatusIs
  | UniqueIdIs
  | ChipLabelIs
  | GpioCountIs
  | GpioNameIs
  | GpioValueIs
  | UnsupportedCmdIs
deriving DecidableEq, Repr

/-- `SecondaryCmd::try_from` on a u8 (derived `TryFromPrimitive`). -/
def secondaryCmd_tryFrom (v : Nat) : Option SecondaryCmd :=
  if v = 128 then some .VersionIs
  else if v = 129 then some .StatusIs
  else if v = 130 then some .UniqueIdIs
  else if v = 131 then some .ChipLabelIs
  else if v = 132 then some .GpioCountIs
  else if v = 133 then some .GpioNameIs
  else if v = 134 then some .GpioValueIs
  else if v = 255 then some .UnsupportedCmdIs
  else none

/-- `deserialize_cmd` (endpoint/packet/mod.rs lines 623-627): an unknown
command byte decodes to the `UnsupportedCmdIs` sentinel instead of
failing. -/
def deserialize_cmd (v : Nat) : SecondaryCmd :=
  (secondaryCmd_tryFrom v).getD .UnsupportedCmdIs

/-- The pair of headers at the front of every sequenced secondary frame:
the outer `cmd, len` header and the `seq` sub-header. -/
structure SecondaryHeaders where
  cmd : SecondaryCmd
  len : Nat
  seq : Nat
deriving DecidableEq, Repr

/-- `deserialize_headers` (endpoint/packet/mod.rs lines 615-621): reads
the cmd byte, the len byte and the seq byte, failing when the buffer is
shorter than three bytes; returns the remaining input as well. -/
def deserialize_headers (input : List Nat) : Option (SecondaryHeaders × List Nat) :=
  match input with
  | c :: l :: s :: rest => some ({ cmd := deserialize_cmd c, len := l, seq := s }, rest)
  | _ => none

/-- The seq echoed by a reply frame, when its headers parse. -/
def packetSeq (packet : List Nat) : Option Nat :=
  (deserialize_headers packet).map fun h => h.1.seq

/-- `StatusIs::deserialize` reduced to the status it yields
(endpoint/packet/mod.rs lines 386-407): headers, then one status byte
decoded with `unwrap_or(Unknown)`; a frame too short for the status byte
fails. -/
def statusIs_deserialize (packet : List Nat) : Option EndpointStatus :=
  match deserialize_headers packet with
  | some (_, v :: _) => some ((endpointStatus_tryFrom v).getD .Unknown)
  | _ => none

/-- `split` (endpoint/packet/mod.rs lines 576-600): walks `(cmd, len)`
pairs, taking `len` payload bytes each time, until the buffer is empty; a
buffer that ends inside a header or before the announced payload is
complete is an error. -/
def split : List Nat → Except String (List (List Nat))
  | [] => .ok []
  | [_] => .error "truncated header"
  | c :: l :: rest =>
    if l ≤ rest.length then
      match split (rest.drop l) with
      | .ok packets => .ok ((c :: l :: rest.take l) :: packets)
      | .error err => .error err
    else .error "truncated payload"
termination_by input => input.length
decreasing_by
  simp only [List.length_drop, List.length_cons]
  omega

/-- A well-formed southbound frame: a cmd byte, a len byte, then exactly
`len` payload bytes. -/
def wellFormedFrame (frame : List Nat) : Bool :=
  match frame with
  | c :: l :: payload => payload.length = l && c < 256 && l < 256
  | _ => false

/-! ### Sequence counter and host request constructors (endpoint/packet/mod.rs) -/

/-- Host-to-secondary command bytes (endpoint/packet/mod.rs, enum
`HostCmd`). -/
inductive HostCmd
  | GetVersion
  | GetUniqueId
  | GetChipLabel
  | GetGpioCount
  | GetGpioName
  | GetGpioValue
  | SetGpioValue
  | SetGpioConfig
  | SetGpioDirection
deriving DecidableEq, Repr

/-- Southbound pin value as serialized in host requests
(endpoint/packet/mod.rs, enum `GpioValue`: Low=0, High=1). -/
inductive EndpointGpioValue
  | Low
  | High
deriving DecidableEq, Repr

/-- Southbound pin configuration (endpoint/packet/mod.rs, enum
`GpioConfig`, discriminants 0..5). -/
inductive EndpointGpioConfig
  | BiasDisable
  | BiasPullDown
  | BiasPullUp
  | DriveOpenDrain
  | DriveOpenSource
  | DrivePushPull
deriving DecidableEq, Repr

/-- Southbound pin direction (endpoint/packet/mod.rs, enum
`GpioDirection`: Output=0, Input=1, Disabled=2). -/
inductive EndpointGpioDirection
  | Output
  | Input
  | Disabled
deriving DecidableEq, Repr

/-- `HostHeader::new` (endpoint/packet/mod.rs lines 89-94): pre-increments
the client's 8-bit sequence counter with wraparound and embeds the
resulting value; returns the updated counter and the embedded seq (they
are equal by construction). -/
def hostHeader_new (seq : Nat) : Nat × Nat :=
  let seq := (seq + 1) % 256
  (seq, seq)

/-- A host request frame at the field level: the outer header's command
and payload length, the embedded seq of the sub-header, and the typed
payload fields present in the given request. -/
structure HostRequest where
  cmd : HostCmd
  len : Nat
  seq : Nat
  pin : Option Nat := none
  value : Option EndpointGpioValue := none
  config : Option EndpointGpioConfig := none
  direction : Option EndpointGpioDirection := none
deriving DecidableEq, Repr

/-- `GetUniqueId::new` (endpoint/packet/mod.rs lines 491-498): a sequenced
request whose payload is just the sub-header. -/
def getUniqueId_new (seq : Nat) : Nat × HostRequest :=
  let (seq, embedded) := hostHeader_new seq
  (seq, { cmd := .GetUniqueId, len := 1, seq := embedded })

/-- `GetChipLabel::new` (endpoint/packet/mod.rs lines 535-542). -/
def getChipLabel_new (seq : Nat) : Nat × HostRequest :=
  let (seq, embedded) := hostHeader_new seq
  (seq, { cmd := .GetChipLabel, len := 1, seq := embedded })

/-- `GetGpioCount::new` (endpoint/packet/mod.rs lines 210-218). -/
def getGpioCount_new (seq : Nat) : Nat × HostRequest :=
  let (seq, embedded) := hostHeader_new seq
  (seq, { cmd := .GetGpioCount, len := 1, seq := embedded })

/-- `GetGpioName::new` (endpoint/packet/mod.rs lines 256-265). -/
def getGpioName_new (seq : Nat) (pin : Nat) : Nat × HostRequest :=
  let (seq, embedded) := hostHeader_new seq
  (seq, { cmd := .GetGpioName, len := 2, seq := embedded, pin := some pin })

/-- `GetGpioValue::new` (endpoint/packet/mod.rs lines 321-329). -/
def getGpioValue_new (seq : Nat) (pin : Nat) : Nat × HostRequest :=
  let (seq, embedded) := hostHeader_new seq
  (seq, { cmd := .GetGpioValue, len := 2, seq := embedded, pin := some pin })

/-- `SetGpioValue::new` (endpoint/packet/mod.rs lines 369-378). -/
def setGpioValue_new (seq : Nat) (pin : Nat) (value : EndpointGpioValue) :
    Nat × HostRequest :=
  let (seq, embedded) := hostHeader_new seq
  (seq, { cmd := .SetGpioValue, len := 3, seq := embedded,
          pin := some pin, value := some value })

/-- `SetGpioConfig::new` (endpoint/packet/mod.rs lines 436-445). -/
def setGpioConfig_new (seq : Nat) (pin : Nat) (config : EndpointGpioConfig) :
    Nat × HostRequest :=
  let (seq, embedded) := hostHeader_new seq
  (seq, { cmd := .SetGpioConfig, len := 3, seq := embedded,
          pin := some pin, config := some config })

/-- `SetGpioDirection::new` (endpoint/packet/mod.rs lines 472-481). -/
def setGpioDirection_new (seq : Nat) (pin : Nat)
    (direction : EndpointGpioDirection) : Nat × HostRequest :=
  let (seq, embedded) := hostHeader_new seq
  (seq, { cmd := .SetGpioDirection, len := 3, seq := embedded,
          pin := some pin, direction := some direction })

/-- One sequenced host request to build, abstracting over the concrete
constructor invoked. -/
inductive HostRequestKind
  | GetUniqueId
  | GetChipLabel
  | GetGpioCount
  | GetGpioName (pin : Nat)
  | GetGpioValue (pin : Nat)
  | SetGpioValue (pin : Nat) (value : EndpointGpioValue)
  | SetGpioConfig (pin : Nat) (config : EndpointGpioConfig)
  | SetGpioDirection (pin : Nat) (direction : EndpointGpioDirection)
deriving DecidableEq, Repr

/-- Builds the request of the given kind against the current counter,
dispatching to the corresponding constructor. -/
def buildRequest (kind : HostRequestKind) (seq : Nat) : Nat × HostRequest :=
  match kind with
  | .GetUniqueId => getUniqueId_new seq
  | .GetChipLabel => getChipLabel_new seq
  | .GetGpioCount => getGpioCount_new seq
  | .GetGpioName pin => getGpioName_new seq pin
  | .GetGpioValue pin => getGpioValue_new seq pin
  | .SetGpioValue pin value => setGpioValue_new seq pin value
  | .SetGpioConfig pin config => setGpioConfig_new seq pin config
  | .SetGpioDirection pin direction => setGpioDirection_new seq pin direction

/-- The seq values carried by consecutive sequenced requests built from
the given seed: each build threads the updated counter into the next. -/
def requestSeqs (seed : Nat) : List HostRequestKind → List Nat
  | [] => []
  | kind :: kinds =>
    (buildRequest kind seed).2.seq :: requestSeqs (buildRequest kind seed).1 kinds

/-! ### Southbound reply wait (gpio/mod.rs Handle::read, endpoint/mod.rs Endpoint::read) -/

/-- `Handle::read` for a sequenced wait (gpio/mod.rs lines 363-421; the
identical loop is endpoint/mod.rs lines 323-373), abstracted over the
finite stream of reply packets the reader thread delivers to the queue
within the timeout budget: an exhausted stream is the timeout; a packet
whose headers fail to parse ends the wait with a deserialization error; a
packet with a non-matching seq is discarded and the wait continues; a
matching `StatusIs` is decoded and a non-Ok status fails the operation;
every other matching packet is returned. -/
def handle_read (expected_seq : Nat) : List (List Nat) → Except GpioError (List Nat)
  | [] => .error (.Recoverable (.Timeout 2000))
  | packet :: rest =>
    match deserialize_headers packet with
    | none => .error (.Recoverable .Deserialization)
    | some (headers, _) =>
      if headers.seq ≠ expected_seq then handle_read expected_seq rest
      else if headers.cmd = .StatusIs then
        match statusIs_deserialize packet with
        | none => .error (.Recoverable .Deserialization)
        | some status =>
          if status ≠ .Ok then .error (.Recoverable (.Packet status))
          else .ok packet
      else .ok packet

/-! ### Mock secondary (gpio/interface/mock.rs) -/

/-- Per-pin state of the mock secondary (mock.rs, struct `MockGpio`). -/
structure MockGpio where
  name : String
  value : EndpointGpioValue
  config : EndpointGpioConfig
  direction : EndpointGpioDirection
deriving DecidableEq, Repr

/-- The `SetGpioDirection` arm of `Mock::read` restricted to one pin's
state (mock.rs lines 202-223): direction `Disabled` resets the stored
value to `Low`, `Output` and `Input` leave it unchanged; the direction is
stored afterwards in every case. -/
def mock_set_gpio_direction_pin (gpio : MockGpio)
    (direction : EndpointGpioDirection) : MockGpio :=
  let gpio :=
    match direction with
    | .Output => gpio
    | .Input => gpio
    | .Disabled => { gpio with value := .Low }
  { gpio with direction := direction }

/-- The `SetGpioDirection` arm of `Mock::read` over the mock's pin table
(mock.rs lines 202-223): updates the addressed pin in place.  The Rust
code indexes the table directly (panicking out of range), so the
out-of-range case is left as the unchanged table and the theorems
hypothesize a valid pin. -/
def mock_set_gpio_direction (gpios : List MockGpio) (pin : Nat)
    (direction : EndpointGpioDirection) : List MockGpio :=
  match gpios[pin]? with
  | some gpio => gpios.set pin (mock_set_gpio_direction_pin gpio direction)
  | none => gpios

/-- The value byte the `GetGpioValue` arm of `Mock::read` reports for the
addressed pin (mock.rs lines 156-169): the stored value. -/
def mock_get_gpio_value (gpios : List MockGpio) (pin : Nat) :
    Option EndpointGpioValue :=
  (gpios[pin]?).map fun gpio => gpio.value

/-! ## Helper lemmas -/

theorem emit_eq_reply {o : Option Reply} {r : Reply} (h : emit o = .reply r) :
    o = some r := by
  cases o with
  | none => exact absurd h (by simp [emit])
  | some a => simp [emit] at h; simp [h]

theorem get_gpio_value_reply_pin {uid pin : Nat} {v : Option Nat}
    {s : Option DriverStatus} {r : Reply}
    (h : get_gpio_value_reply uid pin v s = some r) : r.gpioPin = pin := by
  cases s with
  | none => exact absurd h (by simp [get_gpio_value_reply])
  | some a => simp [get_gpio_value_reply] at h; simp [← h]

theorem set_gpio_value_reply_pin {uid pin : Nat} {s : Option DriverStatus} {r : Reply}
    (h : set_gpio_value_reply uid pin s = some r) : r.gpioPin = pin := by
  cases s with
  | none => exact absurd h (by simp [set_gpio_value_reply])
  | some a => simp [set_gpio_value_reply] at h; simp [← h]

theorem set_gpio_config_reply_pin {uid pin : Nat} {s : Option DriverStatus} {r : Reply}
    (h : set_gpio_config_reply uid pin s = some r) : r.gpioPin = pin := by
  cases s with
  | none => exact absurd h (by simp [set_gpio_config_reply])
  | some a => simp [set_gpio_config_reply] at h; simp [← h]

theorem set_gpio_direction_reply_pin {uid pin : Nat} {s : Option DriverStatus} {r : Reply}
    (h : set_gpio_direction_reply uid pin s = some r) : r.gpioPin = pin := by
  cases s with
  | none => exact absurd h (by simp [set_gpio_direction_reply])
  | some a => simp [set_gpio_direction_reply] at h; simp [← h]

/-! ## Claim C1 -/

/-- The refuting input for C1: a multicast frame addressed to the
broadcast UniqueId 0 that carries the non-Exit command `SetGpioValue`. -/
def c1Packet : NlPacket :=
  { cmd := .SetGpioValue, uniqueId := 0, gpioPin := some 2, gpioValue := some 1 }

/-- C1 counterexample: a broadcast frame (UniqueId 0) carrying
`SetGpioValue` is NOT restricted to `Exit` and NOT treated as unknown —
`filter_packet` forwards it, `Handle::parse` dispatches it as a normal
`SetGpioValue` request, and the router answers it with an ordinary
reply.  This refutes the broadcast clause of C1. -/
theorem c1_counterexample :
    driver_thread_forward 42 c1Packet = some c1Packet ∧
    parse c1Packet = .ok (.SetGpioValue 2 .High) ∧
    multicast_step 42 c1Packet (.ok { seq := 1, value := some .Low }) (.ok ()) =
      some (.reply { cmd := .SetGpioValue, uniqueId := 42, gpioPin := 2, status := .Ok }) := by
  refine ⟨rfl, rfl, rfl⟩

/-- C1 (amended): a multicast packet is forwarded to the router iff its
UniqueId attribute is the broadcast id 0 or the bridge's own unique_id —
and a forwarded packet is dispatched per its command with no
broadcast-specific restriction; a packet with any other UniqueId is
discarded silently: it never reaches the router, so no reply is produced
for it. -/
theorem c1_filter_theorem (unique_id : Nat) (packet : NlPacket)
    (get_op : Except GpioError GpioValueIsReply) (set_op : Except GpioError Unit) :
    (driver_thread_forward unique_id packet = some packet ↔
      (packet.uniqueId = 0 ∨ packet.uniqueId = unique_id)) ∧
    ((packet.uniqueId = 0 ∨ packet.uniqueId = unique_id) →
      multicast_step unique_id packet get_op set_op =
        some (dispatch unique_id packet get_op set_op)) ∧
    (packet.uniqueId ≠ 0 → packet.uniqueId ≠ unique_id →
      multicast_step unique_id packet get_op set_op = none) := by
  by_cases h0 : packet.uniqueId = 0
  · simp [multicast_step, driver_thread_forward, filter_packet, GENL_MULTICAST_UID_ALL, h0]
  · by_cases h1 : packet.uniqueId = unique_id
    · simp [multicast_step, driver_thread_forward, filter_packet, GENL_MULTICAST_UID_ALL, h0, h1]
    · simp [multicast_step, driver_thread_forward, filter_packet, GENL_MULTICAST_UID_ALL, h0, h1]

/-- Witness for the amended C1 at a concrete foreign-addressed packet. -/
theorem c1_witness :
    multicast_step 9 { cmd := .Exit, uniqueId := 5, message := some "unload" }
      (.ok { seq := 0, value := none }) (.ok ()) = none :=
  (c1_filter_theorem 9 { cmd := .Exit, uniqueId := 5, message := some "unload" }
    (.ok { seq := 0, value := none }) (.ok ())).2.2 (by decide) (by decide)

/-! ## Claim C2 -/

/-- C2: whenever the router translates an inbound request into a
southbound operation (the pin fits in u8, so the call is made), the
northbound status of the emitted reply is the stated total mapping of the
operation's outcome — success ↦ Ok, StatusNotOk(NotSupported) ↦
NotSupported, StatusNotOk(InvalidPin) ↦ ProtocolError,
StatusNotOk(Unknown) ↦ Unknown, Serialization/Deserialization ↦
ProtocolError, transport failure ↦ BrokenPipe — and every emitted reply
echoes the request's original GpioPin verbatim. -/
theorem c2_status_mapping (unique_id pin : Nat) (hpin : pin ≤ 255) :
    (on_gpio_set_value unique_id pin (.ok ()) =
      .reply { cmd := .SetGpioValue, uniqueId := unique_id, gpioPin := pin, status := .Ok }) ∧
    (on_gpio_set_config unique_id pin (.ok ()) =
      .reply { cmd := .SetGpioConfig, uniqueId := unique_id, gpioPin := pin, status := .Ok }) ∧
    (on_gpio_set_direction unique_id pin (.ok ()) =
      .reply { cmd := .SetGpioDirection, uniqueId := unique_id, gpioPin := pin, status := .Ok }) ∧
    (∀ seq value,
      on_gpio_get_value unique_id pin (.ok { seq := seq, value := some value }) =
        .reply { cmd := .GetGpioValue, uniqueId := unique_id, gpioPin := pin,
                 status := .Ok, gpioValue := some value.toNat }) ∧
    (∀ err status, driverStatus_tryFrom err = some status →
      on_gpio_set_value unique_id pin (.error (.Recoverable err)) =
        .reply { cmd := .SetGpioValue, uniqueId := unique_id, gpioPin := pin, status := status } ∧
      on_gpio_set_config unique_id pin (.error (.Recoverable err)) =
        .reply { cmd := .SetGpioConfig, uniqueId := unique_id, gpioPin := pin, status := status } ∧
      on_gpio_set_direction unique_id pin (.error (.Recoverable err)) =
        .reply { cmd := .SetGpioDirection, uniqueId := unique_id, gpioPin := pin, status := status } ∧
      on_gpio_get_value unique_id pin (.error (.Recoverable err)) =
        .reply { cmd := .GetGpioValue, uniqueId := unique_id, gpioPin := pin, status := status }) ∧
    driverStatus_tryFrom (.Packet .NotSupported) = some .NotSupported ∧
    driverStatus_tryFrom (.Packet .InvalidPin) = some .ProtocolError ∧
    driverStatus_tryFrom (.Packet .Unknown) = some .Unknown ∧
    driverStatus_tryFrom .Serialization = some .ProtocolError ∧
    driverStatus_tryFrom .Deserialization = some .ProtocolError ∧
    driverStatus_tryFrom .Libcpc = some .BrokenPipe ∧
    (∀ op r, on_gpio_set_value unique_id pin op = .reply r → r.gpioPin = pin) ∧
    (∀ op r, on_gpio_set_config unique_id pin op = .reply r → r.gpioPin = pin) ∧
    (∀ op r, on_gpio_set_direction unique_id pin op = .reply r → r.gpioPin = pin) ∧
    (∀ op r, on_gpio_get_value unique_id pin op = .reply r → r.gpioPin = pin) := by
  refine ⟨?_, ?_, ?_, ?_, ?_, rfl, rfl, rfl, rfl, rfl, rfl, ?_, ?_, ?_, ?_⟩
  · simp [on_gpio_set_value, hpin, emit, set_gpio_value_reply]
  · simp [on_gpio_set_config, hpin, emit, set_gpio_config_reply]
  · simp [on_gpio_set_direction, hpin, emit, set_gpio_direction_reply]
  · intro seq value
    simp [on_gpio_get_value, hpin, emit, get_gpio_value_reply]
  · intro err status h
    refine ⟨?_, ?_, ?_, ?_⟩
    · simp [on_gpio_set_value, hpin, h, emit, set_gpio_value_reply]
    · simp [on_gpio_set_config, hpin, h, emit, set_gpio_config_reply]
    · simp [on_gpio_set_direction, hpin, h, emit, set_gpio_direction_reply]
    · simp [on_gpio_get_value, hpin, h, emit, get_gpio_value_reply]
  · intro op r h
    simp only [on_gpio_set_value, if_pos hpin] at h
    rcases op with e | v
    · rcases e with err | m
      · exact set_gpio_value_reply_pin (emit_eq_reply h)
      · exact RouterStep.noConfusion h
    · exact set_gpio_value_reply_pin (emit_eq_reply h)
  · intro op r h
    simp only [on_gpio_set_config, if_pos hpin] at h
    rcases op with e | v
    · rcases e with err | m
      · exact set_gpio_config_reply_pin (emit_eq_reply h)
      · exact RouterStep.noConfusion h
    · exact set_gpio_config_reply_pin (emit_eq_reply h)
  · intro op r h
    simp only [on_gpio_set_direction, if_pos hpin] at h
    rcases op with e | v
    · rcases e with err | m
      · exact set_gpio_direction_reply_pin (emit_eq_reply h)
      · exact RouterStep.noConfusion h
    · exact set_gpio_direction_reply_pin (emit_eq_reply h)
  · intro op r h
    simp only [on_gpio_get_value, if_pos hpin] at h
    rcases op with e | v
    · rcases e with err | m
      · exact get_gpio_value_reply_pin (emit_eq_reply h)
      · exact RouterStep.noConfusion h
    · obtain ⟨sq, val⟩ := v
      cases val with
      | none => exact get_gpio_value_reply_pin (emit_eq_reply h)
      | some value => exact get_gpio_value_reply_pin (emit_eq_reply h)

/-- Witness for C2 at unique_id 7, pin 3, a successful SetGpioValue. -/
theorem c2_witness :
    on_gpio_set_value 7 3 (.ok ()) =
      .reply { cmd := .SetGpioValue, uniqueId := 7, gpioPin := 3, status := .Ok } :=
  (c2_status_mapping 7 3 (by decide)).1

/-! ## Claim C3 -/

/-- C3 counterexample: on a `Timeout` outcome the router emits no reply —
but the failure is NOT escalated: the handler's step is an absorption,
the loop effect notifies neither exit pipe and the router thread
continues, contradicting the claim's escalation clause. -/
theorem c3_counterexample :
    on_gpio_set_value 7 3 (.error (.Recoverable (.Timeout 2000))) = .noReply ∧
    routerLoopBody (on_gpio_set_value 7 3 (.error (.Recoverable (.Timeout 2000)))) =
      { replies := [], routerExitNotified := false,
        driverUnloadNotified := false, continues := true } := by
  refine ⟨rfl, rfl⟩

/-- C3 (amended): whenever a southbound operation invoked for an inbound
driver request fails with Recoverable Timeout, the router emits no
northbound reply for that request; the request is absorbed and the
router thread simply continues its loop — the timeout is not escalated
to the shutdown path. -/
theorem c3_timeout_theorem (unique_id pin ms : Nat) (hpin : pin ≤ 255) :
    on_gpio_set_value unique_id pin (.error (.Recoverable (.Timeout ms))) = .noReply ∧
    on_gpio_set_config unique_id pin (.error (.Recoverable (.Timeout ms))) = .noReply ∧
    on_gpio_set_direction unique_id pin (.error (.Recoverable (.Timeout ms))) = .noReply ∧
    on_gpio_get_value unique_id pin (.error (.Recoverable (.Timeout ms))) = .noReply ∧
    routerLoopBody .noReply =
      { replies := [], routerExitNotified := false,
        driverUnloadNotified := false, continues := true } := by
  refine ⟨?_, ?_, ?_, ?_, rfl⟩
  · simp [on_gpio_set_value, hpin, driverStatus_tryFrom, emit, set_gpio_value_reply]
  · simp [on_gpio_set_config, hpin, driverStatus_tryFrom, emit, set_gpio_config_reply]
  · simp [on_gpio_set_direction, hpin, driverStatus_tryFrom, emit, set_gpio_direction_reply]
  · simp [on_gpio_get_value, hpin, driverStatus_tryFrom, emit, get_gpio_value_reply]

/-- Witness for the amended C3 at unique_id 9, pin 4. -/
theorem c3_witness :
    on_gpio_set_config 9 4 (.error (.Recoverable (.Timeout 2000))) = .noReply :=
  (c3_timeout_theorem 9 4 2000 (by decide)).2.1

/-! ## Claim C4 -/

theorem buildRequest_state_seq (kind : HostRequestKind) (seq : Nat) :
    (buildRequest kind seq).1 = (seq + 1) % 256 ∧
    (buildRequest kind seq).2.seq = (seq + 1) % 256 := by
  cases kind <;> exact ⟨rfl, rfl⟩

theorem requestSeqs_getElem (kinds : List HostRequestKind) :
    ∀ seed i, i < kinds.length →
      (requestSeqs seed kinds)[i]? = some ((seed + i + 1) % 256) := by
  induction kinds with
  | nil => intro seed i hi; exact absurd hi (by simp)
  | cons kind kinds ih =>
    intro seed i hi
    cases i with
    | zero =>
      simp [requestSeqs, (buildRequest_state_seq kind seed).2]
    | succ j =>
      have hj : j < kinds.length := by simpa using hi
      have hrec := ih (buildRequest kind seed).1 j hj
      have : (requestSeqs seed (kind :: kinds))[j + 1]? =
          (requestSeqs (buildRequest kind seed).1 kinds)[j]? := by
        simp [requestSeqs]
      rw [this, hrec, (buildRequest_state_seq kind seed).1]
      congr 1
      omega

/-- C4: for every seed of the 8-bit counter and every list of N
consecutive sequenced host requests (of any kinds), the i-th request
carries the sequence value `seed + i + 1 (mod 256)` — i.e. the values
are `seed+1, seed+2, …, seed+N` modulo 256 — because every sequenced
request constructor pre-increments the counter with wraparound
(`HostHeader::new`) and embeds the resulting value in the sub-header. -/
theorem c4_sequence_theorem (seed : Nat) (kinds : List HostRequestKind) :
    (∀ i, i < kinds.length →
      (requestSeqs seed kinds)[i]? = some ((seed + i + 1) % 256)) ∧
    (∀ kind s, (buildRequest kind s).2.seq = (s + 1) % 256 ∧
               (buildRequest kind s).1 = (s + 1) % 256) ∧
    (∀ s, hostHeader_new s = ((s + 1) % 256, (s + 1) % 256)) := by
  refine ⟨fun i hi => requestSeqs_getElem kinds seed i hi, ?_, fun s => rfl⟩
  intro kind s
  exact ⟨(buildRequest_state_seq kind s).2, (buildRequest_state_seq kind s).1⟩

/-- Witness for C4 at seed 255: the first request after the counter value
255 wraps around and carries seq 0. -/
theorem c4_witness :
    (requestSeqs 255 [HostRequestKind.GetUniqueId, HostRequestKind.GetGpioValue 3])[0]? =
      some ((255 + 0 + 1) % 256) :=
  (c4_sequence_theorem 255 [HostRequestKind.GetUniqueId, HostRequestKind.GetGpioValue 3]).1
    0 (by decide)

/-! ## Claim C7 -/

/-- C7 counterexample: the signal handler treats SIGUSR1 as graceful
shutdown, but main only subscribes to SIGINT and SIGTERM — SIGUSR1 is
not in the subscribed set, refuting the claim that the bridge subscribes
to all three signals. -/
theorem c7_counterexample :
    Signal.User1 ∉ subscribedSignals ∧
    signal_triggers_deinit Signal.User1 = true := by
  refine ⟨by decide, rfl⟩

/-- C7 (amended): main subscribes exactly to SIGINT and SIGTERM, and the
signal handler treats each of SIGINT, SIGTERM and SIGUSR1 as graceful
shutdown: it performs a final Deinit, and when the Deinit succeeds it
exits through the clean-exit (status 0) path. -/
theorem c7_signal_theorem :
    subscribedSignals = [Signal.Interrupt, Signal.Terminate] ∧
    (∀ s : Signal, s = .Interrupt ∨ s = .Terminate ∨ s = .User1 →
      signal_triggers_deinit s = true ∧
      on_signal_exit s true = .cleanExit "Received signal" ∧
      exitCode (on_signal_exit s true) = some 0) := by
  refine ⟨rfl, ?_⟩
  intro s hs
  rcases hs with h | h | h <;> subst h <;> exact ⟨rfl, rfl, rfl⟩

/-- Witness for the amended C7 at SIGUSR1. -/
theorem c7_witness :
    signal_triggers_deinit Signal.User1 = true ∧
    on_signal_exit Signal.User1 true = .cleanExit "Received signal" ∧
    exitCode (on_signal_exit Signal.User1 true) = some 0 :=
  c7_signal_theorem.2 Signal.User1 (Or.inr (Or.inr rfl))

/-! ## Claim C8 -/

/-- C8: when the chip's unique_id is 0 or the pin-names list is empty,
handle construction fails and no `Init` command is ever written to the
kernel driver — the guards in `Handle::init` run before anything is
sent. -/
theorem c8_init_guard (deinit_and_exit : Bool) (unique_id : Nat)
    (gpio_names : List String) (deinit_result : Except String Unit)
    (init_reply_status : Nat)
    (h : unique_id = 0 ∨ gpio_names = []) :
    DriverCommand.Init ∉
      (handle_new_sent deinit_and_exit unique_id gpio_names deinit_result
        init_reply_status).1 ∧
    ∃ e, (handle_new_sent deinit_and_exit unique_id gpio_names deinit_result
        init_reply_status).2 = .error e := by
  cases deinit_result with
  | error e => exact ⟨by simp [handle_new_sent], e, rfl⟩
  | ok u =>
    cases deinit_and_exit with
    | true => exact ⟨by simp [handle_new_sent], _, rfl⟩
    | false =>
      rcases h with h0 | hn
      · subst h0
        simp [handle_new_sent, handle_init, GENL_MULTICAST_UID_ALL]
      · subst hn
        by_cases h0 : unique_id = 0 <;>
          simp [handle_new_sent, handle_init, GENL_MULTICAST_UID_ALL, h0]

/-- Witness for C8: unique_id 0 with a nonempty name list. -/
theorem c8_witness :
    DriverCommand.Init ∉ (handle_new_sent false 0 ["pin0"] (.ok ()) 0).1 ∧
    ∃ e, (handle_new_sent false 0 ["pin0"] (.ok ()) 0).2 = .error e :=
  c8_init_guard false 0 ["pin0"] (.ok ()) 0 (Or.inl rfl)

/-! ## Claim C9 -/

/-- C9: in the mock secondary, processing `SetGpioDirection` with
direction Disabled resets the addressed pin's stored value to Low, while
Output and Input leave the stored value unchanged — so a pin whose
direction was last set to Disabled observably reads Low. -/
theorem c9_mock_disable (gpios : List MockGpio) (pin : Nat)
    (hpin : pin < gpios.length) :
    mock_get_gpio_value (mock_set_gpio_direction gpios pin .Disabled) pin =
      some EndpointGpioValue.Low ∧
    mock_get_gpio_value (mock_set_gpio_direction gpios pin .Output) pin =
      mock_get_gpio_value gpios pin ∧
    mock_get_gpio_value (mock_set_gpio_direction gpios pin .Input) pin =
      mock_get_gpio_value gpios pin ∧
    (∀ direction,
      ((mock_set_gpio_direction gpios pin direction)[pin]?).map
          (fun gpio => gpio.direction) = some direction) := by
  have hg : gpios[pin]? = some gpios[pin] := List.getElem?_eq_getElem hpin
  have hset : ∀ gpio : MockGpio, (gpios.set pin gpio)[pin]? = some gpio :=
    fun gpio => List.getElem?_set_eq_of_lt gpio hpin
  refine ⟨?_, ?_, ?_, ?_⟩
  · simp [mock_get_gpio_value, mock_set_gpio_direction, hg, hset,
      mock_set_gpio_direction_pin]
  · simp [mock_get_gpio_value, mock_set_gpio_direction, hg, hset,
      mock_set_gpio_direction_pin]
  · simp [mock_get_gpio_value, mock_set_gpio_direction, hg, hset,
      mock_set_gpio_direction_pin]
  · intro direction
    cases direction <;>
      simp [mock_set_gpio_direction, hg, hset, mock_set_gpio_direction_pin]

/-- Witness for C9 on a concrete two-pin mock table. -/
theorem c9_witness :
    mock_get_gpio_value
      (mock_set_gpio_direction
        [{ name := "p0", value := .High, config := .BiasDisable, direction := .Output },
         { name := "p1", value := .High, config := .BiasDisable, direction := .Input }]
        0 .Disabled) 0 = some EndpointGpioValue.Low :=
  (c9_mock_disable
    [{ name := "p0", value := .High, config := .BiasDisable, direction := .Output },
     { name := "p1", value := .High, config := .BiasDisable, direction := .Input }]
    0 (by decide)).1

/-! ## Claim C10 -/

/-- C10: for any accepted GPIO request whose u32 pin exceeds 255, the
u32-to-u8 conversion fails in the handler before the southbound call, so
no northbound reply is emitted; the router thread stops, notifying the
router exit pipe, and the poll loop's router-exit handler ends the
process with a non-zero exit after the final Deinit attempt. -/
theorem c10_pin_overflow (unique_id pin : Nat)
    (get_op : Except GpioError GpioValueIsReply) (set_op : Except GpioError Unit)
    (hpin : 255 < pin) :
    on_gpio_get_value unique_id pin get_op = .escalate tryFromIntError ∧
    on_gpio_set_value unique_id pin set_op = .escalate tryFromIntError ∧
    on_gpio_set_config unique_id pin set_op = .escalate tryFromIntError ∧
    on_gpio_set_direction unique_id pin set_op = .escalate tryFromIntError ∧
    routerLoopBody (.escalate tryFromIntError) =
      { replies := [], routerExitNotified := true,
        driverUnloadNotified := false, continues := false } ∧
    (∀ context deinitOk,
      exitCode (on_router_thread_exit context deinitOk) = some 1) := by
  have h : ¬ pin ≤ 255 := by omega
  refine ⟨?_, ?_, ?_, ?_, rfl, ?_⟩
  · simp [on_gpio_get_value, h]
  · simp [on_gpio_set_value, h]
  · simp [on_gpio_set_config, h]
  · simp [on_gpio_set_direction, h]
  · intro context deinitOk
    cases deinitOk <;> rfl

/-! ## Claim C5 -/

theorem handle_read_ok_seq (e : Nat) :
    ∀ ps q, handle_read e ps = .ok q → packetSeq q = some e := by
  intro ps
  induction ps with
  | nil => intro q h; exact absurd h (by simp [handle_read])
  | cons p rest ih =>
    intro q h
    rcases hd : deserialize_headers p with _ | ⟨headers, rem⟩
    · simp only [handle_read, hd] at h
      exact Except.noConfusion h
    · simp only [handle_read, hd] at h
      by_cases hs : headers.seq = e
      · rw [if_neg (by simp [hs])] at h
        by_cases hc : headers.cmd = .StatusIs
        · rw [if_pos hc] at h
          rcases hst : statusIs_deserialize p with _ | status
          · simp only [hst] at h
            exact Except.noConfusion h
          · simp only [hst] at h
            by_cases hok : status = .Ok
            · rw [if_neg (by simp [hok])] at h
              injection h with h2
              subst h2
              simp [packetSeq, hd, hs]
            · rw [if_pos hok] at h
              exact Except.noConfusion h
        · rw [if_neg hc] at h
          injection h with h2
          subst h2
          simp [packetSeq, hd, hs]
      · rw [if_pos hs] at h
        exact ih q h

theorem handle_read_skip (e : Nat) (post : List (List Nat)) :
    ∀ pre, (∀ q ∈ pre, ∃ s, packetSeq q = some s ∧ s ≠ e) →
      handle_read e (pre ++ post) = handle_read e post := by
  intro pre
  induction pre with
  | nil => intro _; rfl
  | cons p rest ih =>
    intro hpre
    obtain ⟨s, hs, hne⟩ := hpre p (by simp)
    rcases hd : deserialize_headers p with _ | ⟨headers, rem⟩
    · simp [packetSeq, hd] at hs
    · have hseq : headers.seq = s := by
        simp [packetSeq, hd] at hs
        exact hs
      show handle_read e (p :: (rest ++ post)) = handle_read e post
      simp only [handle_read, hd]
      rw [if_pos (by rw [hseq]; exact hne)]
      exact ih fun q hq => hpre q (by simp [hq])

theorem handle_read_match_head (e : Nat) (p : List Nat) (post : List (List Nat))
    (hp : packetSeq p = some e) :
    handle_read e (p :: post) = handle_read e [p] := by
  rcases hd : deserialize_headers p with _ | ⟨headers, rem⟩
  · simp [packetSeq, hd] at hp
  · have hseq : headers.seq = e := by
      simp [packetSeq, hd] at hp
      exact hp
    have hcond : ¬ (headers.seq ≠ e) := by simp [hseq]
    simp only [handle_read, hd, if_neg hcond]

theorem handle_read_single (e : Nat) (p : List Nat) (hp : packetSeq p = some e) :
    handle_read e [p] = .ok p ∨
    handle_read e [p] = .error (.Recoverable .Deserialization) ∨
    ∃ st, st ≠ EndpointStatus.Ok ∧
      handle_read e [p] = .error (.Recoverable (.Packet st)) := by
  rcases hd : deserialize_headers p with _ | ⟨headers, rem⟩
  · simp [packetSeq, hd] at hp
  · have hseq : headers.seq = e := by
      simp [packetSeq, hd] at hp
      exact hp
    have hcond : ¬ (headers.seq ≠ e) := by simp [hseq]
    simp only [handle_read, hd, if_neg hcond]
    by_cases hc : headers.cmd = .StatusIs
    · rw [if_pos hc]
      rcases hst : statusIs_deserialize p with _ | status
      · simp only [hst]
        exact Or.inr (Or.inl trivial)
      · simp only [hst]
        by_cases hok : status = .Ok
        · refine Or.inl ?_
          rw [if_neg (by simp [hok])]
        · exact Or.inr (Or.inr ⟨status, hok, by rw [if_pos hok]⟩)
    · refine Or.inl ?_
      rw [if_neg hc]

/-- C5 counterexample: the only delivered reply has the expected seq 5,
yet the wait does not return it — it is a `StatusIs` carrying
`NotSupported`, so the wait fails with that status instead.  This
refutes the clause that the wait returns the first packet whose echoed
seq equals the expected value. -/
theorem c5_counterexample :
    packetSeq [129, 2, 5, 1] = some 5 ∧
    handle_read 5 [[129, 2, 5, 1]] =
      .error (.Recoverable (.Packet .NotSupported)) := by
  refine ⟨rfl, rfl⟩

/-- C5 (amended): the sequenced wait discards every earlier packet whose
echoed seq does not match, without ending the wait, and terminates at
the first packet whose echoed seq matches; that packet is returned as
the reply unless it is a `StatusIs` frame that is malformed or carries a
non-Ok status, in which case the wait fails (Deserialization resp.
StatusNotOk) instead of returning it; and a packet with a mismatched seq
is never returned. -/
theorem c5_wait_theorem (e : Nat) (pre post : List (List Nat)) (p : List Nat)
    (hpre : ∀ q ∈ pre, ∃ s, packetSeq q = some s ∧ s ≠ e)
    (hp : packetSeq p = some e) :
    handle_read e (pre ++ p :: post) = handle_read e [p] ∧
    (handle_read e [p] = .ok p ∨
     handle_read e [p] = .error (.Recoverable .Deserialization) ∨
     ∃ st, st ≠ EndpointStatus.Ok ∧
       handle_read e [p] = .error (.Recoverable (.Packet st))) ∧
    (∀ ps q, handle_read e ps = .ok q → packetSeq q = some e) := by
  refine ⟨?_, handle_read_single e p hp, handle_read_ok_seq e⟩
  rw [handle_read_skip e (p :: post) pre hpre]
  exact handle_read_match_head e p post hp

/-- Witness for the amended C5: a mismatched `UniqueIdIs` (seq 4) is
skipped and the wait is decided by the matching packet (seq 5). -/
theorem c5_witness :
    handle_read 5 ([[130, 9, 4]] ++ [134, 2, 5, 1] :: []) =
      handle_read 5 [[134, 2, 5, 1]] :=
  (c5_wait_theorem 5 [[130, 9, 4]] [] [134, 2, 5, 1]
    (by
      intro q hq
      simp only [List.mem_singleton] at hq
      subst hq
      exact ⟨4, rfl, by decide⟩)
    rfl).1

/-! ## Claim C6 -/

theorem wellFormedFrame_elim {f : List Nat} (h : wellFormedFrame f = true) :
    ∃ c l payload, f = c :: l :: payload ∧ payload.length = l := by
  match f with
  | [] => exact absurd h (by simp [wellFormedFrame])
  | [c] => exact absurd h (by simp [wellFormedFrame])
  | c :: l :: payload =>
    refine ⟨c, l, payload, rfl, ?_⟩
    simp [wellFormedFrame] at h
    exact h.1.1

theorem split_concat_aux (frames : List (List Nat)) (tail : List Nat)
    (h : ∀ f ∈ frames, wellFormedFrame f = true) :
    split (frames.flatten ++ tail) = (split tail).map fun ps => frames ++ ps := by
  induction frames with
  | nil =>
    simp only [List.flatten_nil, List.nil_append]
    rcases htail : split tail with err | ps <;> simp [htail, Except.map]
  | cons f frames ih =>
    obtain ⟨c, l, payload, hf, hlen⟩ := wellFormedFrame_elim (h f (by simp))
    subst hf
    subst hlen
    have hih := ih fun g hg => h g (by simp [hg])
    have heq : ((c :: payload.length :: payload) :: frames).flatten ++ tail =
        c :: payload.length :: (payload ++ (frames.flatten ++ tail)) := by
      simp [List.flatten_cons, List.append_assoc]
    rw [heq]
    simp only [split]
    rw [if_pos (by simp [List.length_append])]
    rw [List.take_left, List.drop_left, hih]
    rcases htail : split tail with err | ps <;> simp [htail, Except.map]

/-- C6: `split` is a left inverse of frame concatenation — applied to the
concatenation of any sequence of well-formed frames (a cmd byte, a len
byte, then exactly len payload bytes each) it returns exactly that
sequence — and `split` errors on any buffer that, after any sequence of
well-formed frames, ends before an announced payload length is
available. -/
theorem c6_split_theorem (frames : List (List Nat))
    (h : ∀ f ∈ frames, wellFormedFrame f = true) :
    split frames.flatten = .ok frames ∧
    (∀ c l rest, rest.length < l →
      ∃ err, split (frames.flatten ++ c :: l :: rest) = .error err) := by
  constructor
  · have hmain := split_concat_aux frames [] h
    have h0 : split ([] : List Nat) = .ok [] := by simp [split]
    simpa [h0, Except.map] using hmain
  · intro c l rest hlen
    have hmain := split_concat_aux frames (c :: l :: rest) h
    have htr : split (c :: l :: rest) = Except.error "truncated payload" := by
      simp only [split]
      rw [if_neg (by omega)]
    rw [hmain, htr]
    exact ⟨"truncated payload", rfl⟩

/-- Witness for C6 on two concrete frames, one with an empty payload. -/
theorem c6_witness :
    split (List.flatten [[5, 2, 9, 9], [6, 0]]) = .ok [[5, 2, 9, 9], [6, 0]] :=
  (c6_split_theorem [[5, 2, 9, 9], [6, 0]] (by decide)).1

/-- Witness for C10 at pin 300. -/
theorem c10_witness :
    on_gpio_get_value 7 300 (.ok { seq := 1, value := some .Low }) =
      RouterStep.escalate tryFromIntError :=
  (c10_pin_overflow 7 300 (.ok { seq := 1, value := some .Low }) (.ok ())
    (by decide)).1

end CpcGpio
